import Mathlib

/-!
# AgriProfit — verification of the Calculation + Persistence core

Shallow embedding of the profitability calculator (`src/js/calculator.js`)
and the local-storage-backed store (`StorageManager`).  JavaScript numbers
are modelled as exact rationals (`ℚ`); a raw form value for a numeric field
is modelled by `JVal` (missing / empty string / parseable number / NaN);
wall-clock timestamps and `generateId` are modelled by a monotone counter
threaded through the store state.  `JSON.parse` failures and the
availability of the storage medium are modelled explicitly.
-/

namespace AgriProfit

/-- A raw JavaScript value supplied for a numeric input field:
`missing` (undefined or null), the empty string, a value whose
`parseFloat` is the rational `q`, or an unparseable value (NaN). -/
inductive JVal where
  | missing  : JVal
  | emptyStr : JVal
  | num      : ℚ → JVal
  | nan      : JVal
deriving DecidableEq, Repr

/-- `parseFloat`: `none` models NaN. `parseFloat` of undefined, null, or
the empty string is NaN. -/
def parseFloat : JVal → Option ℚ
  | .num q => some q
  | _ => none

/-- `x === undefined || x === null || x === ''` — the "required" guard. -/
def JVal.isAbsent : JVal → Bool
  | .missing  => true
  | .emptyStr => true
  | _ => false

/-- `parseFloat(x) || 0`: NaN falls back to 0 (and 0 itself is falsy,
yielding 0 — the same value). -/
def parseFloatOr0 (v : JVal) : ℚ :=
  (parseFloat v).getD 0

/-- The raw calculator input record (`inputs` in `calculator.js`).
`cropType` is `none` when the property is undefined/null. -/
structure Inputs where
  cropType       : Option String
  acreage        : JVal
  yieldPerAcre   : JVal
  marketPrice    : JVal
  seedCost       : JVal
  fertilizerCost : JVal
  chemicalCost   : JVal
  laborCost      : JVal
  equipmentCost  : JVal
  miscCost       : JVal
deriving DecidableEq, Repr

/-- Result of `validateInputs`. -/
structure Validation where
  isValid : Bool
  errors  : List String
deriving DecidableEq, Repr

/-- Whitespace for `String.prototype.trim`. -/
def isJsWhitespace (c : Char) : Bool :=
  c = ' ' || c = '\t' || c = '\n' || c = '\r'

/-- `String.prototype.trim`: strip leading and trailing whitespace. -/
def jsTrim (s : String) : String :=
  ⟨((s.data.dropWhile isJsWhitespace).reverse.dropWhile isJsWhitespace).reverse⟩

/-- `!inputs.cropType || inputs.cropType.trim() === ''`. -/
def cropTypeEmpty : Option String → Bool
  | none => true
  | some s => jsTrim s == ""

/-- `isNaN(parseFloat(v)) || bad (parseFloat v)` for a present field. -/
def badParsed (v : JVal) (bad : ℚ → Bool) : Bool :=
  match parseFloat v with
  | none => true
  | some q => bad q

/-- `Calculator.validateInputs` (`calculator.js:10`): collects error
messages by successive pushes, in source order. -/
def validateInputs (inputs : Inputs) : Validation :=
  let errors : List String := []
  -- Validate crop type
  let errors := if cropTypeEmpty inputs.cropType then
      errors ++ ["Crop type is required"] else errors
  -- Validate acreage
  let errors := if inputs.acreage.isAbsent then
      errors ++ ["Acres planted is required"]
    else if badParsed inputs.acreage (fun q => q ≤ 0) then
      errors ++ ["Acres planted must be greater than 0"]
    else errors
  -- Validate yield
  let errors := if inputs.yieldPerAcre.isAbsent then
      errors ++ ["Expected yield is required"]
    else if badParsed inputs.yieldPerAcre (fun q => q < 0) then
      errors ++ ["Expected yield cannot be negative"]
    else errors
  -- Validate market price
  let errors := if inputs.marketPrice.isAbsent then
      errors ++ ["Market price is required"]
    else if badParsed inputs.marketPrice (fun q => q < 0) then
      errors ++ ["Market price cannot be negative"]
    else errors
  -- Validate costs (all optional, but must be non-negative if provided);
  -- the `forEach` over the six cost fields is unrolled, the template
  -- message `${field} cannot be negative` expanded per field.
  let costCheck : JVal → String → List String := fun v msg =>
    if !v.isAbsent then
      if badParsed v (fun q => q < 0) then [msg] else []
    else []
  let errors := errors ++ costCheck inputs.seedCost "seedCost cannot be negative"
  let errors := errors ++ costCheck inputs.fertilizerCost "fertilizerCost cannot be negative"
  let errors := errors ++ costCheck inputs.chemicalCost "chemicalCost cannot be negative"
  let errors := errors ++ costCheck inputs.laborCost "laborCost cannot be negative"
  let errors := errors ++ costCheck inputs.equipmentCost "equipmentCost cannot be negative"
  let errors := errors ++ costCheck inputs.miscCost "miscCost cannot be negative"
  { isValid := errors.length == 0, errors := errors }

/-- `calculateProduction`: acres × yieldPerAcre. -/
def calculateProduction (acres yieldPerAcre : ℚ) : ℚ :=
  acres * yieldPerAcre

/-- `calculateRevenue`: production × marketPrice. -/
def calculateRevenue (production marketPrice : ℚ) : ℚ :=
  production * marketPrice

/-- The six per-acre cost components (`costs` object in
`calculateProfitability`). -/
structure Costs where
  seedCost       : ℚ
  fertilizerCost : ℚ
  chemicalCost   : ℚ
  laborCost      : ℚ
  equipmentCost  : ℚ
  miscCost       : ℚ
deriving DecidableEq, Repr

/-- `calculateTotalCost`: acres × Σ components, each component floored at 0
(`costValue >= 0 ? costValue : 0`); iteration follows `Object.keys`
insertion order. -/
def calculateTotalCost (acres : ℚ) (costs : Costs) : ℚ :=
  let floor0 : ℚ → ℚ := fun v => if v ≥ 0 then v else 0
  let costPerAcre :=
    0 + floor0 costs.seedCost + floor0 costs.fertilizerCost
      + floor0 costs.chemicalCost + floor0 costs.laborCost
      + floor0 costs.equipmentCost + floor0 costs.miscCost
  acres * costPerAcre

/-- `calculateNetProfit`: revenue − totalCost. -/
def calculateNetProfit (revenue totalCost : ℚ) : ℚ :=
  revenue - totalCost

/-- `calculateProfitPerAcre`: netProfit / acres, 0 when acres = 0. -/
def calculateProfitPerAcre (netProfit acres : ℚ) : ℚ :=
  if acres = 0 then 0 else netProfit / acres

/-- `calculateProfitMargin`: (netProfit / revenue) × 100, 0 when
revenue = 0. -/
def calculateProfitMargin (netProfit revenue : ℚ) : ℚ :=
  if revenue = 0 then 0 else netProfit / revenue * 100

/-- `calculateCostPerUnit`: totalCost / production, 0 when
production = 0. -/
def calculateCostPerUnit (totalCost production : ℚ) : ℚ :=
  if production = 0 then 0 else totalCost / production

/-- The `data` object of a successful calculation.  The wall-clock
`calculatedAt` field carries no information the core computes from, and is
not modelled. -/
structure CalcData where
  cropType      : Option String
  acres         : ℚ
  yieldPerAcre  : ℚ
  marketPrice   : ℚ
  production    : ℚ
  revenue       : ℚ
  totalCost     : ℚ
  costBreakdown : Costs
  costPerAcre   : ℚ
  costPerUnit   : ℚ
  netProfit     : ℚ
  profitPerAcre : ℚ
  profitMargin  : ℚ
deriving DecidableEq, Repr

/-- A `CalculationResult`: `{success: false, errors}` or
`{success: true, data}`. -/
inductive CalcResult where
  | failure (errors : List String)
  | success (data : CalcData)
deriving DecidableEq, Repr

/-- `Calculator.calculateProfitability` (`calculator.js:150`).  The body
after validation is total, so the `try/catch` branch is unreachable in the
model. -/
def calculateProfitability (inputs : Inputs) : CalcResult :=
  let validation := validateInputs inputs
  if !validation.isValid then
    .failure validation.errors
  else
    let acres := (parseFloat inputs.acreage).getD 0
    let yieldPerAcre := (parseFloat inputs.yieldPerAcre).getD 0
    let marketPrice := (parseFloat inputs.marketPrice).getD 0
    let costs : Costs :=
      { seedCost := parseFloatOr0 inputs.seedCost
        fertilizerCost := parseFloatOr0 inputs.fertilizerCost
        chemicalCost := parseFloatOr0 inputs.chemicalCost
        laborCost := parseFloatOr0 inputs.laborCost
        equipmentCost := parseFloatOr0 inputs.equipmentCost
        miscCost := parseFloatOr0 inputs.miscCost }
    let production := calculateProduction acres yieldPerAcre
    let revenue := calculateRevenue production marketPrice
    let totalCost := calculateTotalCost acres costs
    let netProfit := calculateNetProfit revenue totalCost
    .success
      { cropType := inputs.cropType
        acres := acres
        yieldPerAcre := yieldPerAcre
        marketPrice := marketPrice
        production := production
        revenue := revenue
        totalCost := totalCost
        costBreakdown := costs
        costPerAcre := totalCost / acres
        costPerUnit := calculateCostPerUnit totalCost production
        netProfit := netProfit
        profitPerAcre := calculateProfitPerAcre netProfit acres
        profitMargin := calculateProfitMargin netProfit revenue }

/-- The success-branch `data` record of `calculateProfitability`, factored
out of the else-branch for reuse in proofs (same lets, same order). -/
def successData (inputs : Inputs) : CalcData :=
  let acres := (parseFloat inputs.acreage).getD 0
  let yieldPerAcre := (parseFloat inputs.yieldPerAcre).getD 0
  let marketPrice := (parseFloat inputs.marketPrice).getD 0
  let costs : Costs :=
    { seedCost := parseFloatOr0 inputs.seedCost
      fertilizerCost := parseFloatOr0 inputs.fertilizerCost
      chemicalCost := parseFloatOr0 inputs.chemicalCost
      laborCost := parseFloatOr0 inputs.laborCost
      equipmentCost := parseFloatOr0 inputs.equipmentCost
      miscCost := parseFloatOr0 inputs.miscCost }
  let production := calculateProduction acres yieldPerAcre
  let revenue := calculateRevenue production marketPrice
  let totalCost := calculateTotalCost acres costs
  let netProfit := calculateNetProfit revenue totalCost
  { cropType := inputs.cropType
    acres := acres
    yieldPerAcre := yieldPerAcre
    marketPrice := marketPrice
    production := production
    revenue := revenue
    totalCost := totalCost
    costBreakdown := costs
    costPerAcre := totalCost / acres
    costPerUnit := calculateCostPerUnit totalCost production
    netProfit := netProfit
    profitPerAcre := calculateProfitPerAcre netProfit acres
    profitMargin := calculateProfitMargin netProfit revenue }

/-- Claim-side condition (C4): a required numeric field's rule is violated
when the field is missing/unparseable or its parsed value fails the range
check. -/
def ruleViolated (v : JVal) (bad : ℚ → Bool) : Bool :=
  match parseFloat v with
  | none => true
  | some q => bad q

/-- Claim-side condition (C4): an optional cost field's rule is violated
when the field is present but unparseable or negative. -/
def costRuleViolated (v : JVal) : Bool :=
  !v.isAbsent && ruleViolated v (fun q => decide (q < 0))

theorem append_if_push (errs m : List String) (c : Prop) [Decidable c] :
    (if c then errs ++ m else errs) = errs ++ (if c then m else []) := by
  split_ifs <;> simp

theorem append_if_push2 (errs m1 s2 : List String) (c1 : Prop) [Decidable c1] :
    (if c1 then errs ++ m1 else errs ++ s2) = errs ++ (if c1 then m1 else s2) := by
  split_ifs <;> rfl

theorem length_if_singleton (m : String) (c : Prop) [Decidable c] :
    (if c then [m] else ([] : List String)).length = if c then 1 else 0 := by
  split_ifs <;> rfl

theorem numeric_check_length (v : JVal) (bad : ℚ → Bool) (m1 m2 : String) :
    (if v.isAbsent then [m1] else if badParsed v bad then [m2] else []).length
      = if ruleViolated v bad then 1 else 0 := by
  cases v <;> simp [JVal.isAbsent, badParsed, ruleViolated, parseFloat] <;>
    split_ifs <;> simp

theorem cost_check_length (v : JVal) (m : String) :
    (if !v.isAbsent then
        if badParsed v (fun q => decide (q < 0)) then [m] else []
      else []).length
      = if costRuleViolated v then 1 else 0 := by
  cases v <;> simp [JVal.isAbsent, badParsed, costRuleViolated, ruleViolated, parseFloat] <;>
    split_ifs <;> simp

/-- The error list of `validateInputs` decomposes into one conditional
segment per validation rule, in input-declaration order. -/
theorem validateInputs_errors_decomp (i : Inputs) :
    (validateInputs i).errors =
        (if cropTypeEmpty i.cropType then ["Crop type is required"] else [])
        ++ (if i.acreage.isAbsent then ["Acres planted is required"]
            else if badParsed i.acreage (fun q => decide (q ≤ 0)) then
              ["Acres planted must be greater than 0"] else [])
        ++ (if i.yieldPerAcre.isAbsent then ["Expected yield is required"]
            else if badParsed i.yieldPerAcre (fun q => decide (q < 0)) then
              ["Expected yield cannot be negative"] else [])
        ++ (if i.marketPrice.isAbsent then ["Market price is required"]
            else if badParsed i.marketPrice (fun q => decide (q < 0)) then
              ["Market price cannot be negative"] else [])
        ++ (if !i.seedCost.isAbsent then
              if badParsed i.seedCost (fun q => decide (q < 0)) then
                ["seedCost cannot be negative"] else [] else [])
        ++ (if !i.fertilizerCost.isAbsent then
              if badParsed i.fertilizerCost (fun q => decide (q < 0)) then
                ["fertilizerCost cannot be negative"] else [] else [])
        ++ (if !i.chemicalCost.isAbsent then
              if badParsed i.chemicalCost (fun q => decide (q < 0)) then
                ["chemicalCost cannot be negative"] else [] else [])
        ++ (if !i.laborCost.isAbsent then
              if badParsed i.laborCost (fun q => decide (q < 0)) then
                ["laborCost cannot be negative"] else [] else [])
        ++ (if !i.equipmentCost.isAbsent then
              if badParsed i.equipmentCost (fun q => decide (q < 0)) then
                ["equipmentCost cannot be negative"] else [] else [])
        ++ (if !i.miscCost.isAbsent then
              if badParsed i.miscCost (fun q => decide (q < 0)) then
                ["miscCost cannot be negative"] else [] else []) := by
  simp only [validateInputs, append_if_push, append_if_push2, List.nil_append]

set_option maxHeartbeats 1000000 in
/-- `isValid` holds exactly when no validation rule is violated. -/
theorem validateInputs_isValid_iff (i : Inputs) :
    (validateInputs i).isValid = true ↔
      cropTypeEmpty i.cropType = false ∧
      ruleViolated i.acreage (fun q => decide (q ≤ 0)) = false ∧
      ruleViolated i.yieldPerAcre (fun q => decide (q < 0)) = false ∧
      ruleViolated i.marketPrice (fun q => decide (q < 0)) = false ∧
      costRuleViolated i.seedCost = false ∧
      costRuleViolated i.fertilizerCost = false ∧
      costRuleViolated i.chemicalCost = false ∧
      costRuleViolated i.laborCost = false ∧
      costRuleViolated i.equipmentCost = false ∧
      costRuleViolated i.miscCost = false := by
  have hne : (validateInputs i).isValid = ((validateInputs i).errors.length == 0) := by
    simp only [validateInputs]
  rw [hne, validateInputs_errors_decomp i]
  simp only [List.length_append, numeric_check_length, cost_check_length,
    length_if_singleton, beq_iff_eq, Nat.add_eq_zero]
  simp [ite_eq_right_iff, Bool.not_eq_true]
  tauto

/-- A valid input yields an empty error list. -/
theorem validateInputs_valid_errors_nil (i : Inputs)
    (h : (validateInputs i).isValid = true) : (validateInputs i).errors = [] := by
  have hne : (validateInputs i).isValid = ((validateInputs i).errors.length == 0) := by
    simp only [validateInputs]
  rw [hne] at h
  exact List.eq_nil_of_length_eq_zero (by simpa using h)

/-- C4: `validateInputs` collects all violations without short-circuiting:
its error list is the concatenation, in input-declaration order, of one
conditional segment per rule; each segment holds exactly one message when
its rule is violated (crop type empty; acreage missing/unparseable or
≤ 0; yield missing/unparseable or < 0; market price missing/unparseable
or < 0; a present cost unparseable or < 0) and none otherwise; `isValid`
is true exactly when no rule is violated, and then the error list is
empty. -/
theorem C4_validateInputs_characterization (i : Inputs) :
    ((validateInputs i).errors =
        (if cropTypeEmpty i.cropType then ["Crop type is required"] else [])
        ++ (if i.acreage.isAbsent then ["Acres planted is required"]
            else if badParsed i.acreage (fun q => decide (q ≤ 0)) then
              ["Acres planted must be greater than 0"] else [])
        ++ (if i.yieldPerAcre.isAbsent then ["Expected yield is required"]
            else if badParsed i.yieldPerAcre (fun q => decide (q < 0)) then
              ["Expected yield cannot be negative"] else [])
        ++ (if i.marketPrice.isAbsent then ["Market price is required"]
            else if badParsed i.marketPrice (fun q => decide (q < 0)) then
              ["Market price cannot be negative"] else [])
        ++ (if !i.seedCost.isAbsent then
              if badParsed i.seedCost (fun q => decide (q < 0)) then
                ["seedCost cannot be negative"] else [] else [])
        ++ (if !i.fertilizerCost.isAbsent then
              if badParsed i.fertilizerCost (fun q => decide (q < 0)) then
                ["fertilizerCost cannot be negative"] else [] else [])
        ++ (if !i.chemicalCost.isAbsent then
              if badParsed i.chemicalCost (fun q => decide (q < 0)) then
                ["chemicalCost cannot be negative"] else [] else [])
        ++ (if !i.laborCost.isAbsent then
              if badParsed i.laborCost (fun q => decide (q < 0)) then
                ["laborCost cannot be negative"] else [] else [])
        ++ (if !i.equipmentCost.isAbsent then
              if badParsed i.equipmentCost (fun q => decide (q < 0)) then
                ["equipmentCost cannot be negative"] else [] else [])
        ++ (if !i.miscCost.isAbsent then
              if badParsed i.miscCost (fun q => decide (q < 0)) then
                ["miscCost cannot be negative"] else [] else [])) ∧
    ((if i.acreage.isAbsent then ["Acres planted is required"]
        else if badParsed i.acreage (fun q => decide (q ≤ 0)) then
          ["Acres planted must be greater than 0"] else []).length
      = if ruleViolated i.acreage (fun q => decide (q ≤ 0)) then 1 else 0) ∧
    ((if i.yieldPerAcre.isAbsent then ["Expected yield is required"]
        else if badParsed i.yieldPerAcre (fun q => decide (q < 0)) then
          ["Expected yield cannot be negative"] else []).length
      = if ruleViolated i.yieldPerAcre (fun q => decide (q < 0)) then 1 else 0) ∧
    ((if i.marketPrice.isAbsent then ["Market price is required"]
        else if badParsed i.marketPrice (fun q => decide (q < 0)) then
          ["Market price cannot be negative"] else []).length
      = if ruleViolated i.marketPrice (fun q => decide (q < 0)) then 1 else 0) ∧
    ((if !i.seedCost.isAbsent then
        if badParsed i.seedCost (fun q => decide (q < 0)) then
          ["seedCost cannot be negative"] else [] else []).length
      = if costRuleViolated i.seedCost then 1 else 0) ∧
    ((if !i.miscCost.isAbsent then
        if badParsed i.miscCost (fun q => decide (q < 0)) then
          ["miscCost cannot be negative"] else [] else []).length
      = if costRuleViolated i.miscCost then 1 else 0) ∧
    ((validateInputs i).isValid = true ↔
      cropTypeEmpty i.cropType = false ∧
      ruleViolated i.acreage (fun q => decide (q ≤ 0)) = false ∧
      ruleViolated i.yieldPerAcre (fun q => decide (q < 0)) = false ∧
      ruleViolated i.marketPrice (fun q => decide (q < 0)) = false ∧
      costRuleViolated i.seedCost = false ∧
      costRuleViolated i.fertilizerCost = false ∧
      costRuleViolated i.chemicalCost = false ∧
      costRuleViolated i.laborCost = false ∧
      costRuleViolated i.equipmentCost = false ∧
      costRuleViolated i.miscCost = false) ∧
    ((validateInputs i).isValid = true → (validateInputs i).errors = []) := by
  exact ⟨validateInputs_errors_decomp i, numeric_check_length _ _ _ _,
    numeric_check_length _ _ _ _, numeric_check_length _ _ _ _,
    cost_check_length _ _, cost_check_length _ _, validateInputs_isValid_iff i,
    validateInputs_valid_errors_nil i⟩

/-- The worked example from the specification: corn on 100 acres. -/
def cornExample : Inputs :=
  { cropType := some "corn", acreage := .num 100, yieldPerAcre := .num 180,
    marketPrice := .num (9/2), seedCost := .num 60, fertilizerCost := .num 80,
    chemicalCost := .num 40, laborCost := .num 50, equipmentCost := .num 30,
    miscCost := .num 10 }

/-- An input violating several validation rules at once. -/
def invalidExample : Inputs :=
  { cropType := none, acreage := .num 0, yieldPerAcre := .num (-1),
    marketPrice := .missing, seedCost := .missing, fertilizerCost := .missing,
    chemicalCost := .missing, laborCost := .missing, equipmentCost := .missing,
    miscCost := .nan }

/-- C1: for every input that passes validation, `calculateProfitability`
returns a success result with `netProfit = revenue - totalCost` and
`revenue = acres * yieldPerAcre * marketPrice` exactly; on the corn
example it returns production 18000, revenue 81000, totalCost 27000,
netProfit 54000, profitPerAcre 540 and profitMargin 200/3 (≈ 66.67). -/
theorem C1_profit_identities_and_corn_example :
    (∀ i : Inputs, (validateInputs i).isValid = true →
      ∃ d : CalcData, calculateProfitability i = .success d ∧
        d.netProfit = d.revenue - d.totalCost ∧
        d.revenue = d.acres * d.yieldPerAcre * d.marketPrice) ∧
    ∃ d : CalcData, calculateProfitability cornExample = .success d ∧
      d.production = 18000 ∧ d.revenue = 81000 ∧ d.totalCost = 27000 ∧
      d.netProfit = 54000 ∧ d.profitPerAcre = 540 ∧ d.profitMargin = 200/3 := by
  constructor
  · intro i h
    simp only [calculateProfitability, h, Bool.not_true, Bool.false_eq_true, if_false]
    exact ⟨_, rfl, rfl, rfl⟩
  · have h : cropTypeEmpty (some "corn") = false := by decide
    have hc : calculateProfitability cornExample = .success
        { cropType := some "corn", acres := 100, yieldPerAcre := 180, marketPrice := 9/2,
          production := 18000, revenue := 81000, totalCost := 27000,
          costBreakdown := ⟨60, 80, 40, 50, 30, 10⟩, costPerAcre := 270,
          costPerUnit := 3/2, netProfit := 54000, profitPerAcre := 540,
          profitMargin := 200/3 } := by
      norm_num [calculateProfitability, validateInputs, cornExample, badParsed, parseFloat,
        JVal.isAbsent, parseFloatOr0, calculateProduction, calculateRevenue,
        calculateTotalCost, calculateNetProfit, calculateProfitPerAcre,
        calculateProfitMargin, calculateCostPerUnit, h]
    exact ⟨_, hc, by norm_num, by norm_num, by norm_num, by norm_num, by norm_num, by norm_num⟩

/-- Witness for C1: the corn example passes validation and the universal
half applies to it. -/
theorem C1_profit_identities_and_corn_example_witness :
    (validateInputs cornExample).isValid = true ∧
    ∃ d : CalcData, calculateProfitability cornExample = .success d ∧
      d.netProfit = d.revenue - d.totalCost ∧
      d.revenue = d.acres * d.yieldPerAcre * d.marketPrice := by
  have h : cropTypeEmpty (some "corn") = false := by decide
  have hv : (validateInputs cornExample).isValid = true := by
    norm_num [validateInputs, cornExample, badParsed, parseFloat, JVal.isAbsent, h]
  exact ⟨hv, C1_profit_identities_and_corn_example.1 cornExample hv⟩

/-- C5: whenever validation reports invalid, `calculateProfitability`
returns a failure carrying exactly the error list of `validateInputs`
(same messages, same order).  The embedding is a total function, so no
exception can escape to the caller. -/
theorem C5_failure_propagates_validation_errors :
    ∀ i : Inputs, (validateInputs i).isValid = false →
      calculateProfitability i = .failure (validateInputs i).errors := by
  intro i h
  simp only [calculateProfitability, h, Bool.not_false, if_true]

/-- Witness for C5: a concretely invalid input yields a failure with the
validator's message list. -/
theorem C5_failure_propagates_validation_errors_witness :
    (validateInputs invalidExample).isValid = false ∧
    calculateProfitability invalidExample =
      .failure ["Crop type is required", "Acres planted must be greater than 0",
        "Expected yield cannot be negative", "Market price is required",
        "miscCost cannot be negative"] := by
  have h : (validateInputs invalidExample).isValid = false := by decide
  have he : (validateInputs invalidExample).errors =
      ["Crop type is required", "Acres planted must be greater than 0",
        "Expected yield cannot be negative", "Market price is required",
        "miscCost cannot be negative"] := by decide
  exact ⟨h, by rw [C5_failure_propagates_validation_errors invalidExample h, he]⟩

/-- Witness for C4: the corn example satisfies the validity direction of
the characterization. -/
theorem C4_validateInputs_characterization_witness :
    (validateInputs cornExample).isValid = true ∧
    (validateInputs cornExample).errors = [] := by
  have h : cropTypeEmpty (some "corn") = false := by decide
  have hv : (validateInputs cornExample).isValid = true := by
    norm_num [validateInputs, cornExample, badParsed, parseFloat, JVal.isAbsent, h]
  exact ⟨hv, (C4_validateInputs_characterization cornExample).2.2.2.2.2.2.2 hv⟩

/-- C9: every guarded division returns 0 on a zero divisor:
`calculateProfitPerAcre _ 0 = 0`, `calculateProfitMargin _ 0 = 0`,
`calculateCostPerUnit _ 0 = 0`.  All arithmetic helpers are total
functions of the embedding, so none can raise on its domain. -/
theorem C9_division_guards :
    (∀ netProfit : ℚ, calculateProfitPerAcre netProfit 0 = 0) ∧
    (∀ netProfit : ℚ, calculateProfitMargin netProfit 0 = 0) ∧
    (∀ totalCost : ℚ, calculateCostPerUnit totalCost 0 = 0) := by
  refine ⟨fun n => ?_, fun n => ?_, fun c => ?_⟩ <;>
    simp [calculateProfitPerAcre, calculateProfitMargin, calculateCostPerUnit]

/-! ## Scenarios, comparison and what-if analysis -/

/-- A scenario object: a named calculation.  `id` and the timestamps are
`none` when the property is absent; ids and wall-clock times are drawn
from the store's monotone counter. -/
structure Scenario where
  id          : Option Nat
  name        : String
  description : String
  calculation : Option CalcResult
  savedAt     : Option Nat
  updatedAt   : Option Nat
deriving DecidableEq, Repr

/-- `s.calculation && s.calculation.success` — the filter used by
`compareScenarios`. -/
def scenarioValid (s : Scenario) : Bool :=
  match s.calculation with
  | some (.success _) => true
  | _ => false

/-- `s.calculation.data.netProfit` (0 when not a successful calculation:
only ever read on filtered scenarios). -/
def calcNetProfit (s : Scenario) : ℚ :=
  match s.calculation with
  | some (.success d) => d.netProfit
  | _ => 0

/-- `s.calculation.data.profitPerAcre` (0 when not successful). -/
def calcProfitPerAcre (s : Scenario) : ℚ :=
  match s.calculation with
  | some (.success d) => d.profitPerAcre
  | _ => 0

/-- `s.calculation.data.revenue` (0 when not successful). -/
def calcRevenue (s : Scenario) : ℚ :=
  match s.calculation with
  | some (.success d) => d.revenue
  | _ => 0

/-- `s.calculation.data.totalCost` (0 when not successful). -/
def calcTotalCost (s : Scenario) : ℚ :=
  match s.calculation with
  | some (.success d) => d.totalCost
  | _ => 0

/-- The `comparison` aggregate of `compareScenarios`. -/
structure ComparisonTotals where
  totalRevenue         : ℚ
  totalCost            : ℚ
  totalProfit          : ℚ
  averageProfitPerAcre : ℚ
deriving DecidableEq, Repr

/-- The result object of `compareScenarios`. -/
structure Comparison where
  totalScenarios    : Nat
  bestProfit        : Scenario
  bestProfitPerAcre : Scenario
  scenarios         : List Scenario
  comparison        : ComparisonTotals
deriving DecidableEq, Repr

/-- `Calculator.compareScenarios` (`calculator.js:267`).  A JavaScript
`reduce` without initial value on `[v, ...vs]` is `vs.foldl f v`. -/
def compareScenarios (scenarios : List Scenario) : Option Comparison :=
  if scenarios.length = 0 then none
  else
    let validScenarios := scenarios.filter scenarioValid
    match validScenarios with
    | [] => none
    | v :: vs =>
      let bestProfit := vs.foldl
        (fun best current =>
          if calcNetProfit current > calcNetProfit best then current else best) v
      let bestProfitPerAcre := vs.foldl
        (fun best current =>
          if calcProfitPerAcre current > calcProfitPerAcre best then current else best) v
      some
        { totalScenarios := (v :: vs).length
          bestProfit := bestProfit
          bestProfitPerAcre := bestProfitPerAcre
          scenarios := v :: vs
          comparison :=
            { totalRevenue := (v :: vs).foldl (fun sum s => sum + calcRevenue s) 0
              totalCost := (v :: vs).foldl (fun sum s => sum + calcTotalCost s) 0
              totalProfit := (v :: vs).foldl (fun sum s => sum + calcNetProfit s) 0
              averageProfitPerAcre :=
                ((v :: vs).foldl (fun sum s => sum + calcProfitPerAcre s) 0)
                  / ((v :: vs).length : ℚ) } }

/-- The `priceChange` delta record of `whatIfPriceChange`. -/
structure PriceChange where
  originalPrice : ℚ
  newPrice      : ℚ
  changePercent : ℚ
deriving DecidableEq, Repr

/-- The result object of `whatIfPriceChange`. -/
structure WhatIfResult where
  originalCalculation : CalcResult
  newCalculation      : CalcResult
  scenarioName        : String
  priceChange         : PriceChange
deriving DecidableEq, Repr

/-- The `modifiedInputs` object of `whatIfPriceChange`: the original
successful calculation's inputs with the market price replaced. -/
def whatIfModifiedInputs (d : CalcData) (newPrice : ℚ) : Inputs :=
  { cropType := d.cropType
    acreage := .num d.acres
    yieldPerAcre := .num d.yieldPerAcre
    marketPrice := .num newPrice
    seedCost := .num d.costBreakdown.seedCost
    fertilizerCost := .num d.costBreakdown.fertilizerCost
    chemicalCost := .num d.costBreakdown.chemicalCost
    laborCost := .num d.costBreakdown.laborCost
    equipmentCost := .num d.costBreakdown.equipmentCost
    miscCost := .num d.costBreakdown.miscCost }

/-- `Calculator.whatIfPriceChange` (`calculator.js:228`): `none` models the
`null` returned when the source calculation was not successful. -/
def whatIfPriceChange (calculation : CalcResult) (priceChangePercent : ℚ) :
    Option WhatIfResult :=
  match calculation with
  | .failure _ => none
  | .success d =>
    let originalPrice := d.marketPrice
    let newPrice := originalPrice * (1 + priceChangePercent / 100)
    let modifiedInputs : Inputs := whatIfModifiedInputs d newPrice
    let newCalculation := calculateProfitability modifiedInputs
    some
      { originalCalculation := calculation
        newCalculation := newCalculation
        scenarioName := (if priceChangePercent > 0 then "+" else "")
          ++ toString priceChangePercent ++ "% Price Change"
        priceChange :=
          { originalPrice := originalPrice
            newPrice := newPrice
            changePercent := priceChangePercent } }

/-! ## The persistent store (`StorageManager`)

LocalStorage is modelled as typed partitions in a `Store` record; `tick`
is a monotone counter standing for the `Date.now()` timestamps and the
random suffix of `generateId()`, bumped once per id/timestamp generation.
`settings = none` models an absent or unparseable settings key.  A parse
failure of a list partition degrades to `[]` exactly like an absent key,
so the scenario and history partitions are modelled as plain lists. -/

/-- A saved settings object; a field is `none` when the key is absent
(patches and partial snapshots). -/
structure SettingsObj where
  unitPreference  : Option String
  currency        : Option String
  decimalPlaces   : Option ℚ
  refreshInterval : Option ℚ
  cacheMode       : Option String
  autoSave        : Option Bool
  themeMode       : Option String
deriving DecidableEq, Repr

/-- The empty JS object `{}`. -/
def SettingsObj.empty : SettingsObj := ⟨none, none, none, none, none, none, none⟩

/-- `DEFAULT_SETTINGS` (all keys present). -/
def DEFAULT_SETTINGS : SettingsObj :=
  ⟨some "imperial", some "usd", some 2, some 15, some "smart", some true, some "auto"⟩

/-- One field of the spread `{...a, ...b}`: `b` wins when present. -/
def ov {α : Type} : Option α → Option α → Option α
  | x, none => x
  | _, some y => some y

/-- The object spread `{...a, ...b}` on settings objects. -/
def SettingsObj.overlay (a b : SettingsObj) : SettingsObj :=
  ⟨ov a.unitPreference b.unitPreference, ov a.currency b.currency,
   ov a.decimalPlaces b.decimalPlaces, ov a.refreshInterval b.refreshInterval,
   ov a.cacheMode b.cacheMode, ov a.autoSave b.autoSave,
   ov a.themeMode b.themeMode⟩

/-- A history entry: the shallow copy `{ id: generateId(), ...calculation,
addedAt: ... }` of a scenario/calculation. -/
structure HistoryItem where
  id          : Nat
  name        : String
  description : String
  calculation : Option CalcResult
  savedAt     : Option Nat
  updatedAt   : Option Nat
  addedAt     : Nat
deriving DecidableEq, Repr

/-- The store state: the four persisted partitions, the availability of
the medium, and the id/timestamp counter. -/
structure Store where
  available : Bool
  scenarios : List Scenario
  history   : List HistoryItem
  settings  : Option SettingsObj
  lastCalc  : Option Scenario
  tick      : Nat
deriving DecidableEq, Repr

/-- A store with empty partitions. -/
def emptyStore (avail : Bool) : Store := ⟨avail, [], [], none, none, 0⟩

/-- `{ id: generateId(), ...calculation, addedAt }`: object-literal
properties are overridden by later spread properties, so the spread of a
`calculation` that carries an `id` overrides the freshly generated one. -/
def mkHistoryItem (calculation : Scenario) (gen now : Nat) : HistoryItem :=
  { id := calculation.id.getD gen
    name := calculation.name
    description := calculation.description
    calculation := calculation.calculation
    savedAt := calculation.savedAt
    updatedAt := calculation.updatedAt
    addedAt := now }

/-- `StorageManager.addToHistory` (`part_002:177`): prepend
(`unshift`) then truncate (`slice(0, 100)`). -/
def addToHistory (calculation : Scenario) (st : Store) : Bool × Store :=
  if !st.available then (false, st)
  else
    let historyItem := mkHistoryItem calculation st.tick st.tick
    let history := (historyItem :: st.history).take 100
    (true, { st with history := history, tick := st.tick + 1 })

/-- `scenarios.findIndex(s => s.id === scenario.id) !== -1`. -/
def existsId (l : List Scenario) (sid : Nat) : Bool :=
  l.any (fun s => s.id == some sid)

/-- `scenarios[existingIndex] = scenario` — replace the first match. -/
def replaceFirstById (l : List Scenario) (sid : Nat) (sc : Scenario) : List Scenario :=
  match l with
  | [] => []
  | s :: rest =>
    if s.id == some sid then sc :: rest else s :: replaceFirstById rest sid sc

/-- `scenarios[index] = {...old, ...updates, updatedAt}` — patch the first
match. -/
def updateFirstById (l : List Scenario) (sid : Nat) (f : Scenario → Scenario) :
    List Scenario :=
  match l with
  | [] => []
  | s :: rest =>
    if s.id == some sid then f s :: rest else s :: updateFirstById rest sid f

/-- `StorageManager.saveScenario` (`part_002:43`): assign id/savedAt if
absent, upsert by id, then append to history. -/
def saveScenario (scenario : Scenario) (st : Store) : Bool × Store :=
  if !st.available then (false, st)
  else
    -- Generate unique ID if not provided
    let (sid, st1) : Nat × Store :=
      match scenario.id with
      | some i => (i, st)
      | none => (st.tick, { st with tick := st.tick + 1 })
    let scenario1 := { scenario with id := some sid }
    -- Add timestamp if not provided
    let (sat, st2) : Nat × Store :=
      match scenario1.savedAt with
      | some t => (t, st1)
      | none => (st1.tick, { st1 with tick := st1.tick + 1 })
    let scenario2 := { scenario1 with savedAt := some sat }
    -- Check if updating existing scenario
    let scenarios :=
      if existsId st2.scenarios sid then replaceFirstById st2.scenarios sid scenario2
      else st2.scenarios ++ [scenario2]
    -- Also add to history
    let st3 := (addToHistory scenario2 { st2 with scenarios := scenarios }).2
    (true, st3)

/-- `StorageManager.getScenarios`. -/
def getScenarios (st : Store) : List Scenario :=
  if !st.available then [] else st.scenarios

/-- `StorageManager.getScenario`. -/
def getScenario (id : Nat) (st : Store) : Option Scenario :=
  (getScenarios st).find? (fun s => s.id == some id)

/-- `StorageManager.updateScenario` (`part_002:108`): the patch object is
modelled as a record-patching function. -/
def updateScenario (id : Nat) (patch : Scenario → Scenario) (st : Store) :
    Bool × Store :=
  let scenarios := getScenarios st
  if scenarios.any (fun s => s.id == some id) then
    (true,
      { st with
        scenarios := updateFirstById scenarios id
          (fun s => { patch s with updatedAt := some st.tick })
        tick := st.tick + 1 })
  else (false, st)

/-- `StorageManager.renameScenario`. -/
def renameScenario (id : Nat) (newName : String) (st : Store) : Bool × Store :=
  updateScenario id (fun s => { s with name := newName }) st

/-- `StorageManager.deleteScenario`. -/
def deleteScenario (id : Nat) (st : Store) : Bool × Store :=
  if !st.available then (false, st)
  else (true, { st with scenarios := (getScenarios st).filter (fun s => !(s.id == some id)) })

/-- `StorageManager.deleteAllScenarios` (`removeItem`: later reads see an
empty collection). -/
def deleteAllScenarios (st : Store) : Bool × Store :=
  if !st.available then (false, st) else (true, { st with scenarios := [] })

/-- `StorageManager.getHistory`: `if (limit)` — `null` and `0` are falsy,
so only a positive limit slices. -/
def getHistory (limit : Option Nat) (st : Store) : List HistoryItem :=
  if !st.available then []
  else
    match limit with
    | some n => if n = 0 then st.history else st.history.take n
    | none => st.history

/-- `StorageManager.clearHistory`. -/
def clearHistory (st : Store) : Bool × Store :=
  if !st.available then (false, st) else (true, { st with history := [] })

/-- `StorageManager.deleteHistoryItem`. -/
def deleteHistoryItem (id : Nat) (st : Store) : Bool × Store :=
  if !st.available then (false, st)
  else (true, { st with history := (getHistory none st).filter (fun h => !(h.id == id)) })

/-- `StorageManager.getSettings` (`part_002:307`): defaults overlaid by the
stored object; an absent or unparseable key yields pure defaults. -/
def getSettings (st : Store) : SettingsObj :=
  if !st.available then DEFAULT_SETTINGS
  else
    match st.settings with
    | none => DEFAULT_SETTINGS
    | some stored => DEFAULT_SETTINGS.overlay stored

/-- `StorageManager.saveSettings` (`part_002:284`):
`{...DEFAULT_SETTINGS, ...getSettings(), ...settings}`. -/
def saveSettings (settings : SettingsObj) (st : Store) : Bool × Store :=
  if !st.available then (false, st)
  else
    let mergedSettings := (DEFAULT_SETTINGS.overlay (getSettings st)).overlay settings
    (true, { st with settings := some mergedSettings })

/-- `StorageManager.getSetting` for the `decimalPlaces` key. -/
def getSettingDecimalPlaces (st : Store) : Option ℚ :=
  (getSettings st).decimalPlaces

/-- `StorageManager.resetSettings`. -/
def resetSettings (st : Store) : Bool × Store :=
  if !st.available then (false, st) else (true, { st with settings := none })

/-- `StorageManager.saveLastCalculation`. -/
def saveLastCalculation (c : Scenario) (st : Store) : Bool × Store :=
  if !st.available then (false, st) else (true, { st with lastCalc := some c })

/-- `StorageManager.getLastCalculation`. -/
def getLastCalculation (st : Store) : Option Scenario :=
  if !st.available then none else st.lastCalc

/-- The export snapshot.  `exportedAt` is a pure timestamp and carries no
state; a field is `none` when the corresponding key is absent from an
imported JSON document. -/
structure Snapshot where
  version   : Option String
  scenarios : Option (List Scenario)
  history   : Option (List HistoryItem)
  settings  : Option SettingsObj
deriving DecidableEq, Repr

/-- `StorageManager.exportData` (`part_002:385`). -/
def exportData (st : Store) : Snapshot :=
  { version := some "1.0"
    scenarios := some (getScenarios st)
    history := some (getHistory none st)
    settings := some (getSettings st) }

/-- Result object of `importData`. -/
structure ImportResult where
  success : Bool
  message : String
deriving DecidableEq, Repr

/-- `StorageManager.importData` (`part_002:405`), taking the parsed
snapshot (an unparseable JSON string lands in the same failure branch as
a structurally invalid one).  The falsiness check `!data.version || ...`
rejects a missing field and the empty version string; arrays and objects
are always truthy.  Scenarios are re-saved one by one; the `history`
field of the snapshot is never written; settings are merged. -/
def importData (data : Snapshot) (st : Store) : ImportResult × Store :=
  if data.version.isNone || data.version == some "" || data.scenarios.isNone
      || data.history.isNone || data.settings.isNone then
    ({ success := false, message := "Error importing data: Invalid import format" }, st)
  else
    let scenarios := data.scenarios.getD []
    let st1 := scenarios.foldl (fun acc sc => (saveScenario sc acc).2) st
    let st2 :=
      match data.settings with
      | some s => (saveSettings s st1).2
      | none => st1
    ({ success := true,
       message := "Successfully imported " ++ toString scenarios.length
         ++ " scenarios and settings" }, st2)

/-- `StorageManager.clearAllData`: erase all four partitions. -/
def clearAllData (st : Store) : Bool × Store :=
  if !st.available then (false, st)
  else (true, { st with scenarios := [], history := [], settings := none, lastCalc := none })

/-! ## Store theorems -/

/-- A scenario carrying its own id, saved twice (an update). -/
def duplicateIdScenario : Scenario :=
  { id := some 5
    name := "corn plan"
    description := ""
    calculation := none
    savedAt := some 1
    updatedAt := none }

/-- C2 (refuted — the code contradicts it): saving the same scenario twice
leaves two history entries that both carry the scenario's id 5 — the
spread `{ id: generateId(), ...calculation, addedAt }` lets the copied
scenario's `id` override the freshly generated one, so history ids are
not unique. -/
theorem C2_history_ids_not_fresh :
    ((saveScenario duplicateIdScenario
        (saveScenario duplicateIdScenario (emptyStore true)).2).2.history.map
      HistoryItem.id) = [5, 5] ∧
    ¬ ((saveScenario duplicateIdScenario
        (saveScenario duplicateIdScenario (emptyStore true)).2).2.history.map
      HistoryItem.id).Nodup ∧
    (∀ h ∈ (saveScenario duplicateIdScenario
        (saveScenario duplicateIdScenario (emptyStore true)).2).2.history,
      some h.id = duplicateIdScenario.id) := by
  refine ⟨by decide, by decide, by decide⟩

theorem addToHistory_shape (c : Scenario) (st : Store) (h : st.available = true) :
    (addToHistory c st).2.history
      = (mkHistoryItem c st.tick st.tick :: st.history).take 100 := by
  simp [addToHistory, h]

theorem addToHistory_len (c : Scenario) (st : Store) (h : st.history.length ≤ 100) :
    (addToHistory c st).2.history.length ≤ 100 := by
  by_cases hav : st.available
  · simp [addToHistory, hav]
  · simpa [addToHistory, hav] using h

theorem saveScenario_len (sc : Scenario) (st : Store) (h : st.history.length ≤ 100) :
    (saveScenario sc st).2.history.length ≤ 100 := by
  by_cases hav : st.available
  · cases hid : sc.id <;> cases hsat : sc.savedAt <;>
      simp [saveScenario, addToHistory, hav, hid, hsat]
  · simpa [saveScenario, hav] using h

theorem importData_len (snap : Snapshot) (st : Store) (h : st.history.length ≤ 100) :
    (importData snap st).2.history.length ≤ 100 := by
  by_cases hv : snap.version.isNone || snap.version == some "" || snap.scenarios.isNone
      || snap.history.isNone || snap.settings.isNone
  · simpa [importData, hv] using h
  · simp only [importData, hv, Bool.false_eq_true, if_false]
    have hfold : ∀ (cs : List Scenario) (s : Store), s.history.length ≤ 100 →
        (cs.foldl (fun acc sc => (saveScenario sc acc).2) s).history.length ≤ 100 := by
      intro cs
      induction cs with
      | nil => intro s hs; simpa using hs
      | cons c rest ih => intro s hs; exact ih _ (saveScenario_len c s hs)
    rcases hset : snap.settings with _ | s0
    · simpa [hset] using hfold _ st h
    · have h1 := hfold (snap.scenarios.getD []) st h
      by_cases hav2 : ((snap.scenarios.getD []).foldl
          (fun acc sc => (saveScenario sc acc).2) st).available
      · simpa [hset, saveSettings, hav2] using h1
      · simpa [hset, saveSettings, hav2] using h1

/-- A family of distinct scenarios used to exercise the history cap. -/
def baseScenario (k : Nat) : Scenario :=
  { id := some k
    name := ""
    description := ""
    calculation := none
    savedAt := some k
    updatedAt := none }

/-- Repeated `addToHistory` calls. -/
def addMany (cs : List Scenario) (st : Store) : Store :=
  cs.foldl (fun acc c => (addToHistory c acc).2) st

set_option maxRecDepth 10000 in
/-- C6: `addToHistory` prepends the new entry and truncates to the 100
most recent; every state-changing store operation preserves
`history.length ≤ 100`; and 101 calls on an empty store leave exactly the
100 most-recently-added entries, most recent first (the first entry is
evicted). -/
theorem C6_history_capped_at_100 :
    (∀ (c : Scenario) (st : Store), st.available = true →
      (addToHistory c st).2.history
        = (mkHistoryItem c st.tick st.tick :: st.history).take 100) ∧
    (∀ st : Store, st.history.length ≤ 100 →
      (∀ c, (addToHistory c st).2.history.length ≤ 100) ∧
      (∀ sc, (saveScenario sc st).2.history.length ≤ 100) ∧
      (∀ i f, (updateScenario i f st).2.history.length ≤ 100) ∧
      (∀ i n, (renameScenario i n st).2.history.length ≤ 100) ∧
      (∀ i, (deleteScenario i st).2.history.length ≤ 100) ∧
      ((deleteAllScenarios st).2.history.length ≤ 100) ∧
      ((clearHistory st).2.history.length ≤ 100) ∧
      (∀ i, (deleteHistoryItem i st).2.history.length ≤ 100) ∧
      (∀ p, (saveSettings p st).2.history.length ≤ 100) ∧
      ((resetSettings st).2.history.length ≤ 100) ∧
      (∀ c, (saveLastCalculation c st).2.history.length ≤ 100) ∧
      (∀ snap, (importData snap st).2.history.length ≤ 100) ∧
      ((clearAllData st).2.history.length ≤ 100)) ∧
    ((addMany ((List.range 101).map baseScenario) (emptyStore true)).history
      = (((List.range 101).map
          (fun k => mkHistoryItem (baseScenario k) k k)).reverse).take 100 ∧
     (addMany ((List.range 101).map baseScenario) (emptyStore true)).history.length
       = 100) := by
  refine ⟨addToHistory_shape, ?_, by decide, by decide⟩
  intro st h
  refine ⟨fun c => addToHistory_len c st h, fun sc => saveScenario_len sc st h,
    ?_, ?_, ?_, ?_, ?_, ?_, ?_, ?_, ?_, fun snap => importData_len snap st h, ?_⟩
  · intro i f
    by_cases hex : (getScenarios st).any (fun s => s.id == some i) <;>
      simpa [updateScenario, hex] using h
  · intro i n
    by_cases hex : (getScenarios st).any (fun s => s.id == some i) <;>
      simpa [renameScenario, updateScenario, hex] using h
  · intro i
    by_cases hav : st.available <;> simpa [deleteScenario, hav] using h
  · by_cases hav : st.available <;> simpa [deleteAllScenarios, hav] using h
  · by_cases hav : st.available <;> simpa [clearHistory, hav] using h
  · intro i
    by_cases hav : st.available
    · simp only [deleteHistoryItem, getHistory, hav, Bool.not_true,
        Bool.false_eq_true, if_false]
      exact le_trans (List.length_filter_le _ _) h
    · simpa [deleteHistoryItem, hav] using h
  · intro p
    by_cases hav : st.available <;> simpa [saveSettings, hav] using h
  · by_cases hav : st.available <;> simpa [resetSettings, hav] using h
  · intro c
    by_cases hav : st.available <;> simpa [saveLastCalculation, hav] using h
  · by_cases hav : st.available <;> simpa [clearAllData, hav] using h

/-- Witness for C6: the shape equation and the preservation facts applied
at a concrete store. -/
theorem C6_history_capped_at_100_witness :
    ((emptyStore true).available = true ∧
      (addToHistory (baseScenario 0) (emptyStore true)).2.history
        = (mkHistoryItem (baseScenario 0) 0 0 :: []).take 100) ∧
    ((emptyStore true).history.length ≤ 100 ∧
      (clearHistory (emptyStore true)).2.history.length ≤ 100) := by
  refine ⟨⟨rfl, C6_history_capped_at_100.1 (baseScenario 0) (emptyStore true) rfl⟩,
    ⟨by decide, (C6_history_capped_at_100.2.1 (emptyStore true) (by decide)).2.2.2.2.2.2.1⟩⟩


theorem ov_some (x : Option ℚ) (y : ℚ) : ov x (some y) = some y := rfl
theorem ov_self {α : Type} (x : Option α) : ov x x = x := by cases x <;> rfl
theorem ov_ov_self {α : Type} (x y : Option α) : ov x (ov x y) = ov x y := by
  cases y
  · exact ov_self x
  · rfl

theorem overlay_overlay_self (a b : SettingsObj) :
    a.overlay (a.overlay b) = a.overlay b := by
  cases a <;> cases b <;> simp [SettingsObj.overlay, ov_ov_self]

theorem overlay_empty (a : SettingsObj) : a.overlay SettingsObj.empty = a := by
  cases a <;> simp [SettingsObj.overlay, SettingsObj.empty, ov]

theorem overlay_self (a : SettingsObj) : a.overlay a = a := by
  cases a <;> simp [SettingsObj.overlay, ov_self]

/-- C7: `saveSettings` persists defaults ⊕ persisted ⊕ patch (later
layers win); `getSettings` returns defaults ⊕ persisted, and yields pure
defaults when the medium is unavailable or the stored value is absent or
failed to parse; `saveSettings({decimalPlaces: 4})` on an empty store
followed by `getSettings()` gives decimalPlaces 4 and every other field
at its default. -/
theorem C7_settings_merge_semantics :
    (∀ (st : Store) (patch : SettingsObj), st.available = true →
      (saveSettings patch st).2.settings
        = some ((DEFAULT_SETTINGS.overlay (st.settings.getD SettingsObj.empty)).overlay patch)) ∧
    (∀ st : Store, st.available = true → ∀ s, st.settings = some s →
      getSettings st = DEFAULT_SETTINGS.overlay s) ∧
    (∀ st : Store, st.available = false → getSettings st = DEFAULT_SETTINGS) ∧
    (∀ st : Store, st.settings = none → getSettings st = DEFAULT_SETTINGS) ∧
    getSettings ((saveSettings { SettingsObj.empty with decimalPlaces := some 4 }
        (emptyStore true)).2)
      = { DEFAULT_SETTINGS with decimalPlaces := some 4 } := by
  refine ⟨?_, ?_, ?_, ?_, ?_⟩
  · intro st patch hav
    rcases hset : st.settings with _ | s
    · simp [saveSettings, getSettings, hav, hset, overlay_self, overlay_empty]
    · simp [saveSettings, getSettings, hav, hset, overlay_overlay_self]
  · intro st hav s hset
    simp [getSettings, hav, hset]
  · intro st hav
    simp [getSettings, hav]
  · intro st hset
    rcases hav : st.available <;> simp [getSettings, hav, hset]
  · decide

/-- Witness for C7: the merge equation applied at the empty store. -/
theorem C7_settings_merge_semantics_witness :
    (emptyStore true).available = true ∧
    (saveSettings SettingsObj.empty (emptyStore true)).2.settings
      = some ((DEFAULT_SETTINGS.overlay
          ((emptyStore true).settings.getD SettingsObj.empty)).overlay
          SettingsObj.empty) :=
  ⟨rfl, C7_settings_merge_semantics.1 (emptyStore true) SettingsObj.empty rfl⟩


/-- Claim-side (C8): `b` is the first-encountered maximizer of `f` in `l`. -/
def IsFirstMaxBy (f : Scenario → ℚ) (l : List Scenario) (b : Scenario) : Prop :=
  ∃ l1 l2, l = l1 ++ b :: l2 ∧ (∀ s ∈ l1, f s < f b) ∧ (∀ s ∈ l2, f s ≤ f b)

theorem foldl_max_ge_init (f : Scenario → ℚ) (xs : List Scenario) :
    ∀ x, f x ≤ f (xs.foldl (fun best current =>
      if f current > f best then current else best) x) := by
  induction xs with
  | nil => intro x; simp
  | cons c rest ih =>
    intro x
    simp only [List.foldl_cons]
    by_cases h : f c > f x
    · rw [if_pos h]; exact le_trans (le_of_lt h) (ih c)
    · rw [if_neg h]; exact ih x

theorem foldl_isFirstMaxBy (f : Scenario → ℚ) (xs : List Scenario) :
    ∀ x, IsFirstMaxBy f (x :: xs)
      (xs.foldl (fun best current => if f current > f best then current else best) x) := by
  induction xs with
  | nil => intro x; exact ⟨[], [], rfl, by simp, by simp⟩
  | cons c rest ih =>
    intro x
    simp only [List.foldl_cons]
    by_cases h : f c > f x
    · rw [if_pos h]
      obtain ⟨l1, l2, heq, h1, h2⟩ := ih c
      have hcb : f c ≤ f (rest.foldl (fun best current =>
          if f current > f best then current else best) c) := foldl_max_ge_init f rest c
      refine ⟨x :: l1, l2, ?_, ?_, h2⟩
      · rw [List.cons_append, ← heq]
      · intro s hs
        rcases List.mem_cons.mp hs with rfl | hs1
        · exact lt_of_lt_of_le h hcb
        · exact h1 s hs1
    · rw [if_neg h]
      obtain ⟨l1, l2, heq, h1, h2⟩ := ih x
      cases l1 with
      | nil =>
        simp only [List.nil_append] at heq
        obtain ⟨hb, hl2⟩ := List.cons.inj heq
        refine ⟨[], c :: rest, ?_, by simp, ?_⟩
        · rw [List.nil_append, ← hb]
        · intro s hs
          rcases List.mem_cons.mp hs with rfl | hs1
          · rw [← hb]; exact le_of_not_lt h
          · rw [hl2] at hs1
            exact h2 s hs1
      | cons y t =>
        simp only [List.cons_append] at heq
        obtain ⟨hy, hrest⟩ := List.cons.inj heq
        have hxb : f x < f (rest.foldl (fun best current =>
            if f current > f best then current else best) x) := by
          apply h1; rw [hy]; exact List.mem_cons_self y t
        refine ⟨x :: c :: t, l2, ?_, ?_, h2⟩
        · conv_lhs => rw [hrest]
          simp
        · intro s hs
          rcases List.mem_cons.mp hs with rfl | hs1
          · exact hxb
          rcases List.mem_cons.mp hs1 with rfl | hs2
          · exact lt_of_le_of_lt (le_of_not_lt h) hxb
          · exact h1 s (List.mem_cons_of_mem y hs2)

theorem foldl_add_map (f : Scenario → ℚ) (l : List Scenario) (a : ℚ) :
    l.foldl (fun sum s => sum + f s) a = a + (l.map f).sum := by
  induction l generalizing a with
  | nil => simp
  | cons c rest ih => simp [ih, add_assoc]

/-- C8: `compareScenarios` returns `none` on an empty input or when no
scenario has a successful calculation; otherwise it returns the valid
sublist, its length, the first-encountered maximizers of netProfit and
profitPerAcre, the total revenue/cost/profit, and the mean profitPerAcre
over all valid scenarios. -/
theorem C8_compareScenarios_characterization (scenarios : List Scenario) :
    (scenarios = [] → compareScenarios scenarios = none) ∧
    (scenarios.filter scenarioValid = [] → compareScenarios scenarios = none) ∧
    (∀ v vs, scenarios.filter scenarioValid = v :: vs →
      ∃ r : Comparison, compareScenarios scenarios = some r ∧
        r.scenarios = v :: vs ∧
        r.totalScenarios = (v :: vs).length ∧
        IsFirstMaxBy calcNetProfit (v :: vs) r.bestProfit ∧
        IsFirstMaxBy calcProfitPerAcre (v :: vs) r.bestProfitPerAcre ∧
        r.comparison.totalRevenue = ((v :: vs).map calcRevenue).sum ∧
        r.comparison.totalCost = ((v :: vs).map calcTotalCost).sum ∧
        r.comparison.totalProfit = ((v :: vs).map calcNetProfit).sum ∧
        r.comparison.averageProfitPerAcre
          = ((v :: vs).map calcProfitPerAcre).sum / ((v :: vs).length : ℚ)) := by
  refine ⟨?_, ?_, ?_⟩
  · intro h; subst h; rfl
  · intro h
    rcases scenarios with _ | ⟨a, l⟩
    · rfl
    · simp [compareScenarios, h]
  · intro v vs h
    have hne : ¬ scenarios.length = 0 := by
      intro h0
      rw [List.length_eq_zero] at h0
      subst h0
      simp at h
    simp only [compareScenarios, if_neg hne, h]
    exact ⟨_, rfl, rfl, rfl, foldl_isFirstMaxBy _ vs v, foldl_isFirstMaxBy _ vs v,
      by simp [foldl_add_map], by simp [foldl_add_map], by simp [foldl_add_map],
      by simp [foldl_add_map]⟩


/-- A successful scenario with the given netProfit and profitPerAcre. -/
def cmpScenario (n p : ℚ) : Scenario :=
  { id := none
    name := ""
    description := ""
    calculation := some (.success
      ⟨none, 0, 0, 0, 0, 0, 0, ⟨0, 0, 0, 0, 0, 0⟩, 0, 0, n, p, 0⟩)
    savedAt := none
    updatedAt := none }

/-- Witness for C8: the nonempty-valid branch applied to two concrete
scenarios. -/
theorem C8_compareScenarios_characterization_witness :
    ([cmpScenario 1 2, cmpScenario 3 1].filter scenarioValid
      = cmpScenario 1 2 :: [cmpScenario 3 1]) ∧
    ∃ r : Comparison,
      compareScenarios [cmpScenario 1 2, cmpScenario 3 1] = some r ∧
      r.scenarios = cmpScenario 1 2 :: [cmpScenario 3 1] ∧
      r.totalScenarios = (cmpScenario 1 2 :: [cmpScenario 3 1]).length ∧
      IsFirstMaxBy calcNetProfit (cmpScenario 1 2 :: [cmpScenario 3 1]) r.bestProfit ∧
      IsFirstMaxBy calcProfitPerAcre (cmpScenario 1 2 :: [cmpScenario 3 1])
        r.bestProfitPerAcre ∧
      r.comparison.totalRevenue
        = ((cmpScenario 1 2 :: [cmpScenario 3 1]).map calcRevenue).sum ∧
      r.comparison.totalCost
        = ((cmpScenario 1 2 :: [cmpScenario 3 1]).map calcTotalCost).sum ∧
      r.comparison.totalProfit
        = ((cmpScenario 1 2 :: [cmpScenario 3 1]).map calcNetProfit).sum ∧
      r.comparison.averageProfitPerAcre
        = ((cmpScenario 1 2 :: [cmpScenario 3 1]).map calcProfitPerAcre).sum
          / ((cmpScenario 1 2 :: [cmpScenario 3 1]).length : ℚ) := by
  have h : [cmpScenario 1 2, cmpScenario 3 1].filter scenarioValid
      = cmpScenario 1 2 :: [cmpScenario 3 1] := by
    simp [cmpScenario, scenarioValid]
  exact ⟨h, (C8_compareScenarios_characterization
    [cmpScenario 1 2, cmpScenario 3 1]).2.2 (cmpScenario 1 2) [cmpScenario 3 1] h⟩


/-- On a valid input, `calculateProfitability` succeeds with
`successData`. -/
theorem calculateProfitability_success (i : Inputs)
    (hv : (validateInputs i).isValid = true) :
    calculateProfitability i = .success (successData i) := by
  simp only [calculateProfitability, successData, hv, Bool.not_true,
    Bool.false_eq_true, if_false]

theorem ruleViolated_false_elim (v : JVal) (bad : ℚ → Bool)
    (h : ruleViolated v bad = false) :
    ∃ q, parseFloat v = some q ∧ bad q = false := by
  cases v <;> simp_all [ruleViolated, parseFloat]

theorem costRuleViolated_false_nonneg (v : JVal)
    (h : costRuleViolated v = false) : 0 ≤ parseFloatOr0 v := by
  cases v <;>
    simp_all [costRuleViolated, ruleViolated, JVal.isAbsent, parseFloat, parseFloatOr0]

/-- The modified inputs of a what-if step validate whenever the original
data is in the image of a valid calculation and the new price is
nonnegative. -/
theorem validateInputs_modified (d : CalcData) (newPrice : ℚ)
    (hcrop : cropTypeEmpty d.cropType = false) (ha : 0 < d.acres)
    (hy : 0 ≤ d.yieldPerAcre) (hnp : 0 ≤ newPrice)
    (h1 : 0 ≤ d.costBreakdown.seedCost) (h2 : 0 ≤ d.costBreakdown.fertilizerCost)
    (h3 : 0 ≤ d.costBreakdown.chemicalCost) (h4 : 0 ≤ d.costBreakdown.laborCost)
    (h5 : 0 ≤ d.costBreakdown.equipmentCost) (h6 : 0 ≤ d.costBreakdown.miscCost) :
    (validateInputs (whatIfModifiedInputs d newPrice)).isValid = true :=
  (validateInputs_isValid_iff _).mpr
    ⟨hcrop, decide_eq_false (not_le.mpr ha), decide_eq_false (not_lt.mpr hy),
     decide_eq_false (not_lt.mpr hnp), decide_eq_false (not_lt.mpr h1),
     decide_eq_false (not_lt.mpr h2), decide_eq_false (not_lt.mpr h3),
     decide_eq_false (not_lt.mpr h4), decide_eq_false (not_lt.mpr h5),
     decide_eq_false (not_lt.mpr h6)⟩

/-- C10: for a successful calculation and any percent change ≥ −100,
`whatIfPriceChange` returns a record whose `newCalculation` is itself
successful and preserves cropType, acres, yieldPerAcre, production,
costBreakdown, totalCost and costPerAcre, while the new market price is
the old one scaled by (1 + percentChange/100). -/
theorem C10_whatIfPriceChange_preserves (i : Inputs) (pc : ℚ)
    (hv : (validateInputs i).isValid = true) (hpc : -100 ≤ pc) :
    ∃ d newD : CalcData,
      calculateProfitability i = .success d ∧
      ∃ r : WhatIfResult,
        whatIfPriceChange (calculateProfitability i) pc = some r ∧
        r.newCalculation = .success newD ∧
        r.priceChange.originalPrice = d.marketPrice ∧
        r.priceChange.newPrice = d.marketPrice * (1 + pc / 100) ∧
        newD.cropType = d.cropType ∧
        newD.acres = d.acres ∧
        newD.yieldPerAcre = d.yieldPerAcre ∧
        newD.production = d.production ∧
        newD.costBreakdown = d.costBreakdown ∧
        newD.totalCost = d.totalCost ∧
        newD.costPerAcre = d.costPerAcre ∧
        newD.marketPrice = d.marketPrice * (1 + pc / 100) := by
  obtain ⟨hcrop, hacre, hyld, hpr, hs, hf, hc, hl, he, hm⟩ :=
    (validateInputs_isValid_iff i).mp hv
  obtain ⟨a, hpa, hba⟩ := ruleViolated_false_elim _ _ hacre
  obtain ⟨y, hpy, hby⟩ := ruleViolated_false_elim _ _ hyld
  obtain ⟨p, hpp, hbp⟩ := ruleViolated_false_elim _ _ hpr
  have hA : 0 < (successData i).acres := by
    have : (successData i).acres = a := by simp [successData, hpa]
    rw [this]
    exact lt_of_not_le (by simpa using hba)
  have hY : 0 ≤ (successData i).yieldPerAcre := by
    have : (successData i).yieldPerAcre = y := by simp [successData, hpy]
    rw [this]
    exact not_lt.mp (by simpa using hby)
  have hP : 0 ≤ (successData i).marketPrice := by
    have : (successData i).marketPrice = p := by simp [successData, hpp]
    rw [this]
    exact not_lt.mp (by simpa using hbp)
  have hNP : 0 ≤ (successData i).marketPrice * (1 + pc / 100) := by
    apply mul_nonneg hP
    linarith
  have hv2 := validateInputs_modified (successData i)
    ((successData i).marketPrice * (1 + pc / 100)) hcrop hA hY hNP
    (costRuleViolated_false_nonneg _ hs) (costRuleViolated_false_nonneg _ hf)
    (costRuleViolated_false_nonneg _ hc) (costRuleViolated_false_nonneg _ hl)
    (costRuleViolated_false_nonneg _ he) (costRuleViolated_false_nonneg _ hm)
  have hc2 := calculateProfitability_success _ hv2
  rw [calculateProfitability_success i hv]
  refine ⟨successData i,
    successData (whatIfModifiedInputs (successData i)
      ((successData i).marketPrice * (1 + pc / 100))),
    rfl, _, rfl, hc2, rfl, rfl, rfl, rfl, rfl, rfl, rfl, rfl, rfl, rfl⟩


/-- Witness for C10: the corn example with a +10% price change. -/
theorem C10_whatIfPriceChange_preserves_witness :
    (validateInputs cornExample).isValid = true ∧ -100 ≤ (10 : ℚ) ∧
    ∃ d newD : CalcData,
      calculateProfitability cornExample = .success d ∧
      ∃ r : WhatIfResult,
        whatIfPriceChange (calculateProfitability cornExample) 10 = some r ∧
        r.newCalculation = .success newD ∧
        r.priceChange.originalPrice = d.marketPrice ∧
        r.priceChange.newPrice = d.marketPrice * (1 + 10 / 100) ∧
        newD.cropType = d.cropType ∧
        newD.acres = d.acres ∧
        newD.yieldPerAcre = d.yieldPerAcre ∧
        newD.production = d.production ∧
        newD.costBreakdown = d.costBreakdown ∧
        newD.totalCost = d.totalCost ∧
        newD.costPerAcre = d.costPerAcre ∧
        newD.marketPrice = d.marketPrice * (1 + 10 / 100) := by
  have h : cropTypeEmpty (some "corn") = false := by decide
  have hv : (validateInputs cornExample).isValid = true := by
    norm_num [validateInputs, cornExample, badParsed, parseFloat, JVal.isAbsent, h]
  exact ⟨hv, by norm_num,
    C10_whatIfPriceChange_preserves cornExample 10 hv (by norm_num)⟩


theorem take_append_take {α : Type} (A L : List α) (n : Nat) :
    (A ++ L.take n).take n = (A ++ L).take n := by
  rw [List.take_append_eq_append_take, List.take_append_eq_append_take,
    List.take_take, Nat.min_eq_left (Nat.sub_le n A.length)]

theorem saveScenario_step (c : Scenario) (B : Store) (hav : B.available = true)
    (k t : Nat) (hk : c.id = some k) (ht : c.savedAt = some t)
    (hfresh : ∀ s ∈ B.scenarios, s.id ≠ c.id) :
    (saveScenario c B).2 =
      { B with scenarios := B.scenarios ++ [c]
               history := (mkHistoryItem c B.tick B.tick :: B.history).take 100
               tick := B.tick + 1 } := by
  have hex : existsId B.scenarios k = false := by
    simp only [existsId, List.any_eq_false]
    intro s hs
    simp only [beq_iff_eq]
    rw [← hk]
    exact hfresh s hs
  simp only [saveScenario, hav, Bool.not_true, Bool.false_eq_true, if_false, hk, ht]
  have hc : ({ id := some k, name := c.name, description := c.description,
               calculation := c.calculation, savedAt := some t,
               updatedAt := c.updatedAt } : Scenario) = c := by
    rw [← hk, ← ht]
  rw [hc, hex]
  simp [addToHistory, hav]



/-- Re-saving a list of well-formed, fresh-id scenarios appends them in
order, leaves settings alone, and prepends one history entry per scenario
(id copied from the scenario), newest first, capped at 100. -/
theorem foldl_saveScenario_spec (cs : List Scenario) :
    ∀ B : Store, B.available = true →
    B.history.length ≤ 100 →
    (∀ c ∈ cs, c.id.isSome ∧ c.savedAt.isSome) →
    (∀ c ∈ cs, ∀ s ∈ B.scenarios, s.id ≠ c.id) →
    ((cs.map Scenario.id).Nodup) →
    ((cs.foldl (fun acc sc => (saveScenario sc acc).2) B).available = true ∧
     (cs.foldl (fun acc sc => (saveScenario sc acc).2) B).scenarios
       = B.scenarios ++ cs ∧
     (cs.foldl (fun acc sc => (saveScenario sc acc).2) B).settings = B.settings ∧
     (cs.foldl (fun acc sc => (saveScenario sc acc).2) B).history.map HistoryItem.id
       = ((cs.map (fun c => c.id.getD 0)).reverse
           ++ B.history.map HistoryItem.id).take 100) := by
  induction cs with
  | nil =>
    intro B hav hlen _ _ _
    refine ⟨hav, by simp, rfl, ?_⟩
    simp only [List.foldl_nil, List.map_nil, List.reverse_nil, List.nil_append]
    rw [List.take_of_length_le (by simpa using hlen)]
  | cons c rest ih =>
    intro B hav hlen hwf hdisj hnodup
    obtain ⟨k, hk⟩ := Option.isSome_iff_exists.mp
      (hwf c (List.mem_cons_self c rest)).1
    obtain ⟨t, ht⟩ := Option.isSome_iff_exists.mp
      (hwf c (List.mem_cons_self c rest)).2
    have hstep := saveScenario_step c B hav k t hk ht
      (fun s hs => hdisj c (List.mem_cons_self c rest) s hs)
    have hnodup' : (rest.map Scenario.id).Nodup := by
      simp only [List.map_cons, List.nodup_cons] at hnodup
      exact hnodup.2
    have hcid : c.id ∉ rest.map Scenario.id := by
      simp only [List.map_cons, List.nodup_cons] at hnodup
      exact hnodup.1
    simp only [List.foldl_cons, hstep]
    have hih := ih { B with scenarios := B.scenarios ++ [c]
                            history := (mkHistoryItem c B.tick B.tick :: B.history).take 100
                            tick := B.tick + 1 }
      hav
      (by
        simp only [List.length_take]
        exact min_le_left _ _)
      (fun c' hc' => hwf c' (List.mem_cons_of_mem c hc'))
      (by
        intro c' hc' s hs
        rcases List.mem_append.mp hs with hs1 | hs2
        · exact hdisj c' (List.mem_cons_of_mem c hc') s hs1
        · rw [List.mem_singleton.mp hs2]
          intro heq
          exact hcid (heq ▸ List.mem_map_of_mem Scenario.id hc'))
      hnodup'
    refine ⟨hih.1, ?_, hih.2.2.1, ?_⟩
    · rw [hih.2.1]
      simp
    · rw [hih.2.2.2]
      simp only [List.map_take, List.map_cons]
      have hitem : (mkHistoryItem c B.tick B.tick).id = c.id.getD 0 := by
        simp [mkHistoryItem, hk]
      rw [hitem, take_append_take]
      simp [List.append_assoc]



theorem default_overlay_getSettings (st : Store) :
    DEFAULT_SETTINGS.overlay (getSettings st) = getSettings st := by
  unfold getSettings
  by_cases hav : st.available
  · simp only [hav, Bool.not_true, Bool.false_eq_true, if_false]
    rcases st.settings with _ | s
    · exact overlay_self DEFAULT_SETTINGS
    · exact overlay_overlay_self DEFAULT_SETTINGS s
  · have hf : st.available = false := by simpa using hav
    simp only [hf, Bool.not_false, if_true]
    exact overlay_self DEFAULT_SETTINGS

theorem getSettings_set (sc : List Scenario) (h : List HistoryItem)
    (x : SettingsObj) (lc : Option Scenario) (tk : Nat) :
    getSettings { available := true, scenarios := sc, history := h,
                  settings := some x, lastCalc := lc, tick := tk }
      = DEFAULT_SETTINGS.overlay x := by
  simp [getSettings]

theorem importData_import (data : Snapshot) (st0 : Store) (v : String)
    (cs : List Scenario) (hs : List HistoryItem) (so : SettingsObj)
    (hd : data = ⟨some v, some cs, some hs, some so⟩) (hvne : v ≠ "") :
    importData data st0 =
      ({ success := true,
         message := "Successfully imported " ++ toString cs.length
           ++ " scenarios and settings" },
       (saveSettings so (cs.foldl (fun acc sc => (saveScenario sc acc).2) st0)).2) := by
  subst hd
  simp [importData, hvne]

/-- C3 (amended): the round trip reproduces the scenarios partition (same
ids and field values, given distinct present ids and savedAt stamps) and
the effective settings; history is not restored from the snapshot —
instead it holds one freshly-added entry per imported scenario, newest
first, capped at 100, whose ids are copied from the scenarios. -/
theorem C3_roundtrip_amended (st : Store) (hav : st.available = true)
    (hwf : ∀ s ∈ st.scenarios, s.id.isSome ∧ s.savedAt.isSome)
    (hnodup : (st.scenarios.map Scenario.id).Nodup) :
    (importData (exportData st) (emptyStore true)).1.success = true ∧
    (importData (exportData st) (emptyStore true)).2.scenarios = st.scenarios ∧
    getSettings (importData (exportData st) (emptyStore true)).2 = getSettings st ∧
    (importData (exportData st) (emptyStore true)).2.history.map HistoryItem.id
      = ((st.scenarios.map (fun s => s.id.getD 0)).reverse).take 100 := by
  have hsc : getScenarios st = st.scenarios := by simp [getScenarios, hav]
  have himp := importData_import (exportData st) (emptyStore true) "1.0"
    (getScenarios st) (getHistory none st) (getSettings st) rfl (by decide)
  rw [hsc] at himp
  have hfold := foldl_saveScenario_spec st.scenarios (emptyStore true) rfl
    (by simp [emptyStore]) hwf (by simp [emptyStore]) hnodup
  rw [himp]
  set st1 := st.scenarios.foldl (fun acc sc => (saveScenario sc acc).2) (emptyStore true)
    with hst1
  have hav1 : st1.available = true := hfold.1
  have hsettings1 : st1.settings = none := hfold.2.2.1
  have hget1 : getSettings st1 = DEFAULT_SETTINGS := by
    simp [getSettings, hav1, hsettings1]
  refine ⟨rfl, ?_, ?_, ?_⟩
  · simp only [saveSettings, hav1, Bool.not_true, Bool.false_eq_true, if_false]
    rw [hfold.2.1]
    simp [emptyStore]
  · simp only [saveSettings, hav1, Bool.not_true, Bool.false_eq_true, if_false,
      hget1, overlay_self]
    rw [getSettings_set, overlay_overlay_self, default_overlay_getSettings]
  · simp only [saveSettings, hav1, Bool.not_true, Bool.false_eq_true, if_false]
    rw [hfold.2.2.2]
    simp [emptyStore]

/-- A raw calculation object (no id) for history-only content. -/
def rawCalculation : Scenario :=
  { id := none
    name := "calc"
    description := ""
    calculation := none
    savedAt := none
    updatedAt := none }

/-- A store whose only content is one history entry. -/
def historyOnlyStore : Store := (addToHistory rawCalculation (emptyStore true)).2

/-- C3 counterexample: on a store holding only one history entry, the
export/import round trip succeeds but produces an empty history — the
snapshot's `history` field is never written back, so the original history
collection is not reproduced. -/
theorem C3_roundtrip_counterexample :
    historyOnlyStore.history ≠ [] ∧
    (importData (exportData historyOnlyStore) (emptyStore true)).1.success = true ∧
    (importData (exportData historyOnlyStore) (emptyStore true)).2.history = [] := by
  refine ⟨by decide, by decide, by decide⟩


/-- A well-formed one-scenario store for the C3 witness. -/
def wfStore : Store :=
  (saveScenario
    { id := some 7, name := "w", description := "", calculation := none,
      savedAt := some 3, updatedAt := none } (emptyStore true)).2

/-- Witness for C3 (amended): the round trip on a concrete one-scenario
store. -/
theorem C3_roundtrip_amended_witness :
    wfStore.available = true ∧
    ((importData (exportData wfStore) (emptyStore true)).1.success = true ∧
     (importData (exportData wfStore) (emptyStore true)).2.scenarios
       = wfStore.scenarios ∧
     getSettings (importData (exportData wfStore) (emptyStore true)).2
       = getSettings wfStore ∧
     (importData (exportData wfStore) (emptyStore true)).2.history.map HistoryItem.id
       = ((wfStore.scenarios.map (fun s => s.id.getD 0)).reverse).take 100) := by
  have h1 : wfStore.available = true := by decide
  have h2 : ∀ s ∈ wfStore.scenarios, s.id.isSome ∧ s.savedAt.isSome := by decide
  have h3 : (wfStore.scenarios.map Scenario.id).Nodup := by decide
  exact ⟨h1, C3_roundtrip_amended wfStore h1 h2 h3⟩

end AgriProfit
